import Mathlib

/-!
Verification of the session/context state machine of the pdf-qa-app service.

The repository has two near-duplicate variants:
* the multi-document variant (`src/index.js`), whose Document Store is the
  JS object `pdfContexts` (an insertion-ordered map filename -> text);
* the single-document variant (`src/unnamed/part_000`), whose Document Store
  is the single string `pdfContext`.

Both hold three global mutable variables (store, `systemPrompt`,
`conversationHistory`) and expose two operations, upload (ingest) and ask.
External collaborators (the PDF text extractor and the answer provider) are
modelled as parameters: the extractor's outcome for each byte payload is
passed in directly, and the provider is a function from the transcript and
system prompt to `Except String String` (error carries the thrown message),
so the theorems can speak about exactly which transcript the provider is
invoked with.
-/

/-- A transcript turn role, as the JS strings "user" / "assistant". -/
inductive Role where
  | user
  | assistant
  deriving DecidableEq, Repr

/-- One turn of the conversation transcript: `{ role, content }`. -/
structure Turn where
  role : Role
  content : String
  deriving DecidableEq, Repr

def mkUser (q : String) : Turn := ⟨Role.user, q⟩

def mkAssistant (a : String) : Turn := ⟨Role.assistant, a⟩

/-- The `{ success, message }` JSON shape returned by the upload handlers. -/
structure UploadResponse where
  success : Bool
  message : String
  deriving DecidableEq, Repr

/-- The ask handlers return `{ success: true, answer }` or
`{ success: false, message }`. -/
inductive AskResponse where
  | ok (answer : String)
  | fail (message : String)
  deriving DecidableEq, Repr

/-! ## Multi-document variant (src/index.js) -/

/-- The three global variables of src/index.js: `pdfContexts` (a JS object,
modelled as an insertion-ordered association list), `systemPrompt` and
`conversationHistory`. -/
structure MultiState where
  pdfContexts : List (String × String)
  systemPrompt : String
  conversationHistory : List Turn
  deriving DecidableEq, Repr

/-- Initial values of the globals: `{}`, `''`, `[]`. -/
def initM : MultiState := ⟨[], "", []⟩

/-- JS object assignment `pdfContexts[k] = v`: an existing key keeps its
insertion position and gets the new value; a new key is appended. -/
def setKey : List (String × String) → String → String → List (String × String)
  | [], k, v => [(k, v)]
  | (k', v') :: rest, k, v =>
      if k' = k then (k, v) :: rest else (k', v') :: setKey rest k v

/-- The fixed instruction preamble of src/index.js line 64. -/
def preambleM : String :=
  "You are an assistant that answers questions based on the following PDF contents: "

/-- src/index.js line 64: backtick template = preamble followed by
`Object.values(pdfContexts).join(' ')`. -/
def promptOfM (store : List (String × String)) : String :=
  preambleM ++ String.intercalate " " (store.map Prod.snd)

/-- The `for await` loop of the upload handler (src/index.js lines 53-62),
threading the store and the `uploadedFiles` list through the batch. Each
file is a pair of its `filename` and its extraction outcome
(`some text` when `PDFParser` succeeds, `none` when it throws: the catch
block only logs and the pair is skipped). -/
def ingestLoop : List (String × String) → List String → List (String × Option String) →
    List (String × String) × List String
  | store, names, [] => (store, names)
  | store, names, (fname, some text) :: rest =>
      ingestLoop (setKey store fname text) (names ++ [fname]) rest
  | store, names, (_, none) :: rest => ingestLoop store names rest

/-- The POST /upload handler of src/index.js (lines 49-68): run the batch
loop, recompute the system prompt from the whole store, reset the
conversation history, and return success with the list of stored names. -/
def uploadM (s : MultiState) (files : List (String × Option String)) :
    MultiState × UploadResponse :=
  let r := ingestLoop s.pdfContexts [] files
  (⟨r.1, promptOfM r.1, []⟩,
   ⟨true, "PDFs uploaded and processed successfully: " ++ String.intercalate ", " r.2⟩)

/-- The transcript the provider receives: `conversationHistory` right after
`conversationHistory.push({ role: "user", content: question })`
(src/index.js lines 80-81). -/
def sentTranscriptM (s : MultiState) (q : String) : List Turn :=
  s.conversationHistory ++ [mkUser q]

/-- The POST /ask handler of src/index.js (lines 70-87). The emptiness check
is JS falsiness `!question` (no trimming); the store check is
`Object.keys(pdfContexts).length === 0`. On the main path the user turn is
pushed, the provider called with the whole history, and on success the
assistant turn pushed; on provider error the catch returns failure with the
thrown message, leaving the pushed user turn in place. -/
def askM (s : MultiState) (q : String)
    (p : List Turn → String → Except String String) : MultiState × AskResponse :=
  if q = "" then (s, AskResponse.fail "No question provided.")
  else if s.pdfContexts = [] then
    (s, AskResponse.fail "Please upload at least one PDF first.")
  else
    match p (sentTranscriptM s q) s.systemPrompt with
    | Except.ok a =>
        ({ s with conversationHistory := sentTranscriptM s q ++ [mkAssistant a] },
         AskResponse.ok a)
    | Except.error e =>
        ({ s with conversationHistory := sentTranscriptM s q }, AskResponse.fail e)

/-! ## Single-document variant (src/unnamed/part_000) -/

/-- The three globals of the single-document variant: `pdfContext` (a string),
`systemPrompt`, `conversationHistory`. -/
structure SingleState where
  pdfContext : String
  systemPrompt : String
  conversationHistory : List Turn
  deriving DecidableEq, Repr

/-- Initial values: `''`, `''`, `[]`. -/
def initS : SingleState := ⟨"", "", []⟩

/-- The fixed instruction preamble of src/unnamed/part_000 line 49. -/
def preambleS : String :=
  "You are an assistant that answers questions based on the following PDF content: "

/-- part_000 line 49: preamble followed by the stored text. -/
def promptOfS (text : String) : String := preambleS ++ text

/-- The POST /upload handler of part_000 (lines 42-55). `extracted` is the
outcome of `PDFParser(buffer)`: on success the three globals are set and
success returned; when the parser throws, the catch returns failure with the
error message and touches no global. -/
def uploadS (s : SingleState) (extracted : Except String String) :
    SingleState × UploadResponse :=
  match extracted with
  | Except.ok text =>
      (⟨text, promptOfS text, []⟩, ⟨true, "PDF uploaded and processed successfully."⟩)
  | Except.error e =>
      (s, ⟨false, "Error processing PDF: " ++ e⟩)

/-- The transcript the provider receives in part_000 (lines 67-68). -/
def sentTranscriptS (s : SingleState) (q : String) : List Turn :=
  s.conversationHistory ++ [mkUser q]

/-- The POST /ask handler of part_000 (lines 57-74); identical to the
multi-document one except the store check is the falsiness of `pdfContext`
and the rejection message differs. -/
def askS (s : SingleState) (q : String)
    (p : List Turn → String → Except String String) : SingleState × AskResponse :=
  if q = "" then (s, AskResponse.fail "No question provided.")
  else if s.pdfContext = "" then (s, AskResponse.fail "Please upload a PDF first.")
  else
    match p (sentTranscriptS s q) s.systemPrompt with
    | Except.ok a =>
        ({ s with conversationHistory := sentTranscriptS s q ++ [mkAssistant a] },
         AskResponse.ok a)
    | Except.error e =>
        ({ s with conversationHistory := sentTranscriptS s q }, AskResponse.fail e)

/-! ## Traces of operations -/

/-- One client request against the multi-document variant: an upload with the
batch's extraction outcomes, or an ask with the question and the provider. -/
inductive EventM where
  | ingest (files : List (String × Option String))
  | ask (q : String) (p : List Turn → String → Except String String)

/-- State transition of one multi-variant request. -/
def stepM (s : MultiState) : EventM → MultiState
  | EventM.ingest files => (uploadM s files).1
  | EventM.ask q p => (askM s q p).1

/-- Run a sequence of requests against the multi-document variant. -/
def runM (s : MultiState) (evs : List EventM) : MultiState :=
  evs.foldl stepM s

/-- One client request against the single-document variant. -/
inductive EventS where
  | ingest (extracted : Except String String)
  | ask (q : String) (p : List Turn → String → Except String String)

/-- State transition of one single-variant request. -/
def stepS (s : SingleState) : EventS → SingleState
  | EventS.ingest ex => (uploadS s ex).1
  | EventS.ask q p => (askS s q p).1

/-- Run a sequence of requests against the single-document variant. -/
def runS (s : SingleState) (evs : List EventS) : SingleState :=
  evs.foldl stepS s

/-! ## Derived notions used by the claims -/

/-- The successfully extracted (identifier, text) pairs of a batch, in batch
order. -/
def successPairs (files : List (String × Option String)) : List (String × String) :=
  files.filterMap (fun f => f.2.map (fun t => (f.1, t)))

/-- Store all given documents in order with JS-object assignment semantics. -/
def applyDocs (store : List (String × String)) (docs : List (String × String)) :
    List (String × String) :=
  docs.foldl (fun st d => setKey st d.1 d.2) store

/-- A turn is admissible after a turn of role `prev` when it is a user turn,
or an assistant turn immediately preceded by a user turn. -/
def turnOk (prev : Role) (t : Turn) : Bool :=
  decide (t.role = Role.user) || decide (prev = Role.user)

/-- Transcript well-formedness relative to the role preceding it. -/
def wfAfter : Role → List Turn → Bool
  | _, [] => true
  | prev, t :: rest => turnOk prev t && wfAfter t.role rest

/-- Transcript well-formedness: the first turn (if any) is a user turn, and
every assistant turn is immediately preceded by a user turn. Seeding with
`Role.assistant` forces the first turn to be a user turn. -/
def wfHistory (l : List Turn) : Bool :=
  wfAfter Role.assistant l

/-- The role of the last turn, or `prev` when the list is empty. -/
def lastRole (prev : Role) : List Turn → Role
  | [] => prev
  | t :: rest => lastRole t.role rest

/-- The indexed reading of transcript well-formedness: a nonempty transcript
starts with a user turn, and each assistant turn sits right after a user
turn. -/
def histOkIdx (l : List Turn) : Prop :=
  (∀ h0 : 0 < l.length, (l.get ⟨0, h0⟩).role = Role.user) ∧
  ∀ i, ∀ hi : i + 1 < l.length,
    (l.get ⟨i + 1, hi⟩).role = Role.assistant →
      (l.get ⟨i, Nat.lt_of_succ_lt hi⟩).role = Role.user

/-! ## Helper lemmas -/

theorem ingestLoop_store_eq (files : List (String × Option String)) :
    ∀ store names, (ingestLoop store names files).1 = applyDocs store (successPairs files) := by
  induction files with
  | nil => intro store names; rfl
  | cons f rest ih =>
    intro store names
    obtain ⟨fname, ex⟩ := f
    cases ex with
    | none => simpa [ingestLoop, successPairs, applyDocs] using ih store names
    | some text => simpa [ingestLoop, successPairs, applyDocs] using ih (setKey store fname text) (names ++ [fname])

theorem ingestLoop_names_eq (files : List (String × Option String)) :
    ∀ store names, (ingestLoop store names files).2 = names ++ (successPairs files).map Prod.fst := by
  induction files with
  | nil => intro store names; simp [ingestLoop, successPairs]
  | cons f rest ih =>
    intro store names
    obtain ⟨fname, ex⟩ := f
    cases ex with
    | none => simpa [ingestLoop, successPairs] using ih store names
    | some text => simp [ingestLoop, successPairs, ih (setKey store fname text) (names ++ [fname])]

theorem askM_eq (s : MultiState) (q : String) (p : List Turn → String → Except String String)
    (hq : ¬ q = "") (hs : ¬ s.pdfContexts = []) :
    askM s q p =
      match p (sentTranscriptM s q) s.systemPrompt with
      | Except.ok a =>
          ({ s with conversationHistory := sentTranscriptM s q ++ [mkAssistant a] },
           AskResponse.ok a)
      | Except.error e =>
          ({ s with conversationHistory := sentTranscriptM s q }, AskResponse.fail e) := by
  unfold askM
  rw [if_neg hq, if_neg hs]

theorem askS_eq (s : SingleState) (q : String) (p : List Turn → String → Except String String)
    (hq : ¬ q = "") (hs : ¬ s.pdfContext = "") :
    askS s q p =
      match p (sentTranscriptS s q) s.systemPrompt with
      | Except.ok a =>
          ({ s with conversationHistory := sentTranscriptS s q ++ [mkAssistant a] },
           AskResponse.ok a)
      | Except.error e =>
          ({ s with conversationHistory := sentTranscriptS s q }, AskResponse.fail e) := by
  unfold askS
  rw [if_neg hq, if_neg hs]

theorem wfAfter_append (l r : List Turn) :
    ∀ prev, wfAfter prev (l ++ r) = (wfAfter prev l && wfAfter (lastRole prev l) r) := by
  induction l with
  | nil => intro prev; simp [wfAfter, lastRole]
  | cons t rest ih =>
    intro prev
    simp [wfAfter, lastRole, ih t.role, Bool.and_assoc]

theorem wfAfter_user_single (prev : Role) (q : String) :
    wfAfter prev [mkUser q] = true := by
  simp [wfAfter, turnOk, mkUser]

theorem wfAfter_user_assistant (prev : Role) (q a : String) :
    wfAfter prev [mkUser q, mkAssistant a] = true := by
  simp [wfAfter, turnOk, mkUser, mkAssistant]

theorem wfHistory_append_user {h : List Turn} (hw : wfHistory h = true) (q : String) :
    wfHistory (h ++ [mkUser q]) = true := by
  unfold wfHistory at hw ⊢
  rw [wfAfter_append, hw, wfAfter_user_single]
  rfl

theorem wfHistory_append_pair {h : List Turn} (hw : wfHistory h = true) (q a : String) :
    wfHistory (h ++ [mkUser q, mkAssistant a]) = true := by
  unfold wfHistory at hw ⊢
  rw [wfAfter_append, hw, wfAfter_user_assistant]
  rfl

theorem askM_history_cases (s : MultiState) (q : String)
    (p : List Turn → String → Except String String) :
    (askM s q p).1.conversationHistory = s.conversationHistory ∨
    (askM s q p).1.conversationHistory = s.conversationHistory ++ [mkUser q] ∨
    ∃ a, (askM s q p).1.conversationHistory =
      s.conversationHistory ++ [mkUser q, mkAssistant a] := by
  unfold askM
  by_cases hq : q = ""
  · simp [hq]
  by_cases hs : s.pdfContexts = []
  · simp [hq, hs]
  rw [if_neg hq, if_neg hs]
  cases hp : p (sentTranscriptM s q) s.systemPrompt with
  | ok a =>
    right; right
    exact ⟨a, by simp [sentTranscriptM]⟩
  | error e =>
    right; left
    simp [sentTranscriptM]

theorem askS_history_cases (s : SingleState) (q : String)
    (p : List Turn → String → Except String String) :
    (askS s q p).1.conversationHistory = s.conversationHistory ∨
    (askS s q p).1.conversationHistory = s.conversationHistory ++ [mkUser q] ∨
    ∃ a, (askS s q p).1.conversationHistory =
      s.conversationHistory ++ [mkUser q, mkAssistant a] := by
  unfold askS
  by_cases hq : q = ""
  · simp [hq]
  by_cases hs : s.pdfContext = ""
  · simp [hq, hs]
  rw [if_neg hq, if_neg hs]
  cases hp : p (sentTranscriptS s q) s.systemPrompt with
  | ok a =>
    right; right
    exact ⟨a, by simp [sentTranscriptS]⟩
  | error e =>
    right; left
    simp [sentTranscriptS]

theorem stepM_wf {s : MultiState} (hw : wfHistory s.conversationHistory = true)
    (ev : EventM) : wfHistory (stepM s ev).conversationHistory = true := by
  cases ev with
  | ingest files => rfl
  | ask q p =>
    rcases askM_history_cases s q p with h | h | ⟨a, h⟩
    · rw [stepM, h]; exact hw
    · rw [stepM, h]; exact wfHistory_append_user hw q
    · rw [stepM, h]; exact wfHistory_append_pair hw q a

theorem stepS_wf {s : SingleState} (hw : wfHistory s.conversationHistory = true)
    (ev : EventS) : wfHistory (stepS s ev).conversationHistory = true := by
  cases ev with
  | ingest ex =>
    cases ex with
    | ok text => rfl
    | error e => exact hw
  | ask q p =>
    rcases askS_history_cases s q p with h | h | ⟨a, h⟩
    · rw [stepS, h]; exact hw
    · rw [stepS, h]; exact wfHistory_append_user hw q
    · rw [stepS, h]; exact wfHistory_append_pair hw q a

theorem runM_wf (evs : List EventM) :
    ∀ s : MultiState, wfHistory s.conversationHistory = true →
      wfHistory (runM s evs).conversationHistory = true := by
  induction evs with
  | nil => intro s hw; exact hw
  | cons ev rest ih =>
    intro s hw
    exact ih (stepM s ev) (stepM_wf hw ev)

theorem runS_wf (evs : List EventS) :
    ∀ s : SingleState, wfHistory s.conversationHistory = true →
      wfHistory (runS s evs).conversationHistory = true := by
  induction evs with
  | nil => intro s hw; exact hw
  | cons ev rest ih =>
    intro s hw
    exact ih (stepS s ev) (stepS_wf hw ev)

theorem wfAfter_adjacent (l : List Turn) :
    ∀ prev, wfAfter prev l = true →
      ∀ i, ∀ hi : i + 1 < l.length,
        (l.get ⟨i + 1, hi⟩).role = Role.assistant →
          (l.get ⟨i, Nat.lt_of_succ_lt hi⟩).role = Role.user := by
  induction l with
  | nil => intro prev _ i hi; exact absurd hi (by simp)
  | cons t rest ih =>
    intro prev hw i hi hrole
    rw [wfAfter, Bool.and_eq_true] at hw
    cases i with
    | zero =>
      cases rest with
      | nil => exact absurd hi (by simp)
      | cons t2 r2 =>
        rw [wfAfter, Bool.and_eq_true] at hw
        have hok := hw.2.1
        simp only [List.get] at hrole ⊢
        rw [turnOk, Bool.or_eq_true, decide_eq_true_iff, decide_eq_true_iff] at hok
        rcases hok with h | h
        · rw [hrole] at h; cases h
        · exact h
    | succ j =>
      simp only [List.get] at hrole ⊢
      exact ih t.role hw.2 j (Nat.lt_of_succ_lt_succ hi) hrole

theorem wfHistory_first (l : List Turn) (hw : wfHistory l = true) :
    ∀ h0 : 0 < l.length, (l.get ⟨0, h0⟩).role = Role.user := by
  intro h0
  cases l with
  | nil => cases h0
  | cons t rest =>
    unfold wfHistory wfAfter at hw
    rw [Bool.and_eq_true] at hw
    have hok := hw.1
    rw [turnOk, Bool.or_eq_true, decide_eq_true_iff, decide_eq_true_iff] at hok
    rcases hok with h | h
    · exact h
    · cases h

theorem wfHistory_histOkIdx (l : List Turn) (hw : wfHistory l = true) : histOkIdx l :=
  ⟨wfHistory_first l hw, wfAfter_adjacent l Role.assistant hw⟩

theorem runM_ingest_store (batches : List (List (String × Option String))) :
    ∀ s : MultiState, (runM s (batches.map EventM.ingest)).pdfContexts =
      batches.foldl (fun st b => applyDocs st (successPairs b)) s.pdfContexts := by
  induction batches with
  | nil => intro s; rfl
  | cons b rest ih =>
    intro s
    have hstep : (stepM s (EventM.ingest b)).pdfContexts = applyDocs s.pdfContexts (successPairs b) :=
      ingestLoop_store_eq b s.pdfContexts []
    calc (runM s ((b :: rest).map EventM.ingest)).pdfContexts
        = (runM (stepM s (EventM.ingest b)) (rest.map EventM.ingest)).pdfContexts := rfl
      _ = rest.foldl (fun st c => applyDocs st (successPairs c)) (stepM s (EventM.ingest b)).pdfContexts := ih _
      _ = (b :: rest).foldl (fun st c => applyDocs st (successPairs c)) s.pdfContexts := by rw [hstep]; rfl

/-! ## Claims -/

/-- C1: when the provider call of an ask fails, the caller gets a failure
response carrying the thrown message, the already-pushed user turn is not
rolled back (the transcript ends with exactly that one new user turn and no
assistant turn), and a subsequent successful ask hands the provider a
transcript that still contains the orphan user turn. Stated for both
variants; `sentTranscriptM`/`sentTranscriptS` is the exact transcript
argument the provider receives, as the hypotheses on `p1`, `p2` show. -/
theorem ask_provider_failure_leaves_orphan_turn :
    (∀ (s : MultiState) (q1 e : String) (p1 : List Turn → String → Except String String),
      q1 ≠ "" → s.pdfContexts ≠ [] →
      p1 (sentTranscriptM s q1) s.systemPrompt = Except.error e →
      (askM s q1 p1).2 = AskResponse.fail e ∧
      (askM s q1 p1).1.conversationHistory = s.conversationHistory ++ [mkUser q1] ∧
      ∀ (q2 a : String) (p2 : List Turn → String → Except String String), q2 ≠ "" →
        p2 (sentTranscriptM (askM s q1 p1).1 q2) (askM s q1 p1).1.systemPrompt = Except.ok a →
        sentTranscriptM (askM s q1 p1).1 q2 =
          s.conversationHistory ++ [mkUser q1, mkUser q2] ∧
        mkUser q1 ∈ sentTranscriptM (askM s q1 p1).1 q2 ∧
        (askM (askM s q1 p1).1 q2 p2).2 = AskResponse.ok a) ∧
    (∀ (s : SingleState) (q1 e : String) (p1 : List Turn → String → Except String String),
      q1 ≠ "" → s.pdfContext ≠ "" →
      p1 (sentTranscriptS s q1) s.systemPrompt = Except.error e →
      (askS s q1 p1).2 = AskResponse.fail e ∧
      (askS s q1 p1).1.conversationHistory = s.conversationHistory ++ [mkUser q1] ∧
      ∀ (q2 a : String) (p2 : List Turn → String → Except String String), q2 ≠ "" →
        p2 (sentTranscriptS (askS s q1 p1).1 q2) (askS s q1 p1).1.systemPrompt = Except.ok a →
        sentTranscriptS (askS s q1 p1).1 q2 =
          s.conversationHistory ++ [mkUser q1, mkUser q2] ∧
        mkUser q1 ∈ sentTranscriptS (askS s q1 p1).1 q2 ∧
        (askS (askS s q1 p1).1 q2 p2).2 = AskResponse.ok a) := by
  constructor
  · intro s q1 e p1 hq1 hs hp1
    have h1 := askM_eq s q1 p1 hq1 hs
    rw [hp1] at h1
    refine ⟨by rw [h1], by rw [h1]; rfl, ?_⟩
    intro q2 a p2 hq2 hp2
    have hst : sentTranscriptM (askM s q1 p1).1 q2 =
        s.conversationHistory ++ [mkUser q1, mkUser q2] := by
      rw [h1]; simp [sentTranscriptM]
    have hs1 : (askM s q1 p1).1.pdfContexts ≠ [] := by rw [h1]; exact hs
    have h2 := askM_eq (askM s q1 p1).1 q2 p2 hq2 hs1
    rw [hp2] at h2
    exact ⟨hst, by rw [hst]; simp, by rw [h2]⟩
  · intro s q1 e p1 hq1 hs hp1
    have h1 := askS_eq s q1 p1 hq1 hs
    rw [hp1] at h1
    refine ⟨by rw [h1], by rw [h1]; rfl, ?_⟩
    intro q2 a p2 hq2 hp2
    have hst : sentTranscriptS (askS s q1 p1).1 q2 =
        s.conversationHistory ++ [mkUser q1, mkUser q2] := by
      rw [h1]; simp [sentTranscriptS]
    have hs1 : (askS s q1 p1).1.pdfContext ≠ "" := by rw [h1]; exact hs
    have h2 := askS_eq (askS s q1 p1).1 q2 p2 hq2 hs1
    rw [hp2] at h2
    exact ⟨hst, by rw [hst]; simp, by rw [h2]⟩

/-- C1 witness: a concrete failed ask followed by a successful one, in the
multi-document variant. -/
theorem ask_provider_failure_leaves_orphan_turn_witness :
    (askM ⟨[("d.pdf", "T")], "P", []⟩ "q1" (fun _ _ => Except.error "boom")).2 =
      AskResponse.fail "boom" ∧
    (askM ⟨[("d.pdf", "T")], "P", []⟩ "q1" (fun _ _ => Except.error "boom")).1.conversationHistory =
      [] ++ [mkUser "q1"] ∧
    sentTranscriptM (askM ⟨[("d.pdf", "T")], "P", []⟩ "q1" (fun _ _ => Except.error "boom")).1 "q2" =
      [] ++ [mkUser "q1", mkUser "q2"] ∧
    (askM (askM ⟨[("d.pdf", "T")], "P", []⟩ "q1" (fun _ _ => Except.error "boom")).1 "q2"
      (fun _ _ => Except.ok "ans")).2 = AskResponse.ok "ans" := by
  have h := ask_provider_failure_leaves_orphan_turn.1 ⟨[("d.pdf", "T")], "P", []⟩ "q1" "boom"
    (fun _ _ => Except.error "boom") (by decide) (by decide) rfl
  have h2 := h.2.2 "q2" "ans" (fun _ _ => Except.ok "ans") (by decide) rfl
  exact ⟨h.1, h.2.1, h2.1, h2.2.2⟩

/-- C2 counterexample: in the single-document variant, an upload whose
extraction fails is an ingest call that does not reset the transcript — the
pre-existing turn survives, refuting "every ingest (upload) call resets the
Conversation Transcript to the empty sequence, unconditionally". -/
theorem failed_single_upload_keeps_transcript :
    (uploadS ⟨"T", promptOfS "T", [mkUser "q"]⟩ (Except.error "bad")).1.conversationHistory ≠
      ([] : List Turn) := by
  decide

/-- C2 amended: the multi-document variant resets the transcript on every
ingest call, unconditionally; the single-document variant resets it exactly
on successful extraction, and leaves it untouched when extraction fails. -/
theorem upload_resets_transcript :
    (∀ (s : MultiState) (files : List (String × Option String)),
      (uploadM s files).1.conversationHistory = []) ∧
    (∀ (s : SingleState) (text : String),
      (uploadS s (Except.ok text)).1.conversationHistory = []) ∧
    (∀ (s : SingleState) (e : String),
      (uploadS s (Except.error e)).1.conversationHistory = s.conversationHistory) :=
  ⟨fun _ _ => rfl, fun _ _ => rfl, fun _ _ => rfl⟩

/-- C3 counterexample: the handlers test JS falsiness of the question, not
emptiness after trimming, so the whitespace-only question " " is not
rejected: the provider is consulted (its answer is returned) and the
transcript is mutated. -/
theorem whitespace_question_not_rejected :
    (askM ⟨[("d.pdf", "T")], "P", []⟩ " " (fun _ _ => Except.ok "ans")).2 =
      AskResponse.ok "ans" ∧
    (askM ⟨[("d.pdf", "T")], "P", []⟩ " " (fun _ _ => Except.ok "ans")).1.conversationHistory =
      [mkUser " ", mkAssistant "ans"] := by
  constructor <;> rfl

/-- C3 amended: only the exactly-empty question is rejected: ask then returns
the fixed "No question provided." failure, leaves the whole state unchanged,
and never consults the provider (the result is the same for every provider
`p`). Whitespace-only questions pass the check. Both variants. -/
theorem empty_question_rejected_without_mutation :
    (∀ (s : MultiState) (p : List Turn → String → Except String String),
      askM s "" p = (s, AskResponse.fail "No question provided.")) ∧
    (∀ (s : SingleState) (p : List Turn → String → Except String String),
      askS s "" p = (s, AskResponse.fail "No question provided.")) := by
  constructor
  · intro s p; unfold askM; simp
  · intro s p; unfold askS; simp

/-- C5: a successful ask appends exactly the user turn then the assistant
turn, the provider is invoked with the entire transcript including the
just-appended user turn (the transcript named in the hypothesis on `p` is
exactly `conversationHistory ++ [mkUser q]`), and the answer is returned
with success. Both variants. -/
theorem successful_ask_appends_user_then_assistant :
    (∀ (s : MultiState) (q a : String) (p : List Turn → String → Except String String),
      q ≠ "" → s.pdfContexts ≠ [] →
      p (sentTranscriptM s q) s.systemPrompt = Except.ok a →
      sentTranscriptM s q = s.conversationHistory ++ [mkUser q] ∧
      askM s q p =
        ({ s with conversationHistory := s.conversationHistory ++ [mkUser q, mkAssistant a] },
         AskResponse.ok a)) ∧
    (∀ (s : SingleState) (q a : String) (p : List Turn → String → Except String String),
      q ≠ "" → s.pdfContext ≠ "" →
      p (sentTranscriptS s q) s.systemPrompt = Except.ok a →
      sentTranscriptS s q = s.conversationHistory ++ [mkUser q] ∧
      askS s q p =
        ({ s with conversationHistory := s.conversationHistory ++ [mkUser q, mkAssistant a] },
         AskResponse.ok a)) := by
  constructor
  · intro s q a p hq hs hp
    have h1 := askM_eq s q p hq hs
    rw [hp] at h1
    refine ⟨rfl, ?_⟩
    rw [h1]
    simp [sentTranscriptM]
  · intro s q a p hq hs hp
    have h1 := askS_eq s q p hq hs
    rw [hp] at h1
    refine ⟨rfl, ?_⟩
    rw [h1]
    simp [sentTranscriptS]

/-- C5 witness: the spec's concrete scenario — one document whose text is
"Revenue was $5M in 2023.", question "What was the revenue?", provider
answer "$5M". -/
theorem successful_ask_appends_user_then_assistant_witness :
    sentTranscriptM ⟨[("d.pdf", "Revenue was $5M in 2023.")],
        promptOfM [("d.pdf", "Revenue was $5M in 2023.")], []⟩ "What was the revenue?" =
      [] ++ [mkUser "What was the revenue?"] ∧
    askM ⟨[("d.pdf", "Revenue was $5M in 2023.")],
        promptOfM [("d.pdf", "Revenue was $5M in 2023.")], []⟩ "What was the revenue?"
      (fun _ _ => Except.ok "$5M") =
      (⟨[("d.pdf", "Revenue was $5M in 2023.")],
        promptOfM [("d.pdf", "Revenue was $5M in 2023.")],
        [] ++ [mkUser "What was the revenue?", mkAssistant "$5M"]⟩,
       AskResponse.ok "$5M") :=
  successful_ask_appends_user_then_assistant.1
    ⟨[("d.pdf", "Revenue was $5M in 2023.")],
      promptOfM [("d.pdf", "Revenue was $5M in 2023.")], []⟩
    "What was the revenue?" "$5M" (fun _ _ => Except.ok "$5M")
    (by decide) (by decide) rfl

/-- C4 counterexample: in the single-document variant, after an ingest call
whose extraction fails from the initial state, the System Prompt is still the
initial empty string, not the claimed "fixed preamble followed by the stored
text" formula applied to the current store — so the prompt after every
ingest call is not the claimed pure function of the store. -/
theorem failed_single_upload_prompt_not_formula :
    (uploadS initS (Except.error "bad")).1.systemPrompt ≠
      promptOfS (uploadS initS (Except.error "bad")).1.pdfContext := by
  decide

/-- C4 amended: in the multi-document variant, after every ingest call the
System Prompt equals the fixed preamble followed by the stored texts in store
iteration order joined by a single space (`promptOfM`, a function of the
store's values only), and the store after an ingest is the previous store
updated with exactly the batch's successfully extracted pairs; hence over
ingest-only traces the store (and so the prompt) after call n is determined
solely by the successes of calls 1..n. In the single-document variant the
same holds after every successful ingest; a failed ingest leaves the prompt
unchanged (e.g. the initial empty string, as the counterexample shows). -/
theorem prompt_is_function_of_store :
    (∀ (s : MultiState) (files : List (String × Option String)),
      (uploadM s files).1.systemPrompt = promptOfM (uploadM s files).1.pdfContexts ∧
      (uploadM s files).1.pdfContexts = applyDocs s.pdfContexts (successPairs files)) ∧
    (∀ batches : List (List (String × Option String)),
      (runM initM (batches.map EventM.ingest)).pdfContexts =
        batches.foldl (fun st b => applyDocs st (successPairs b)) []) ∧
    (∀ (s : SingleState) (text : String),
      (uploadS s (Except.ok text)).1.systemPrompt =
        promptOfS (uploadS s (Except.ok text)).1.pdfContext) :=
  ⟨fun s files => ⟨rfl, ingestLoop_store_eq files s.pdfContexts []⟩,
   fun batches => runM_ingest_store batches initM,
   fun _ _ => rfl⟩

/-- C6 counterexample: in the single-document variant an extraction failure
is a batch-level failure: the upload responds with success = false instead
of reporting success with an empty list. -/
theorem failed_single_upload_reports_failure :
    (uploadS initS (Except.error "bad")).2.success = false := rfl

/-- C6 amended: in the multi-document variant, extraction failure on a pair
only skips that pair and does not abort the rest — the resulting store is
the previous store updated with exactly the successful pairs — and the
operation always reports success, listing exactly the successfully stored
identifiers (possibly none). In the single-document variant, a successful
extraction reports success, but an extraction failure returns a failure
response rather than success with an empty list. -/
theorem upload_per_item_failure :
    (∀ (s : MultiState) (files : List (String × Option String)),
      (uploadM s files).2.success = true ∧
      (uploadM s files).2.message =
        "PDFs uploaded and processed successfully: " ++
          String.intercalate ", " ((successPairs files).map Prod.fst) ∧
      (uploadM s files).1.pdfContexts = applyDocs s.pdfContexts (successPairs files)) ∧
    (∀ (s : SingleState) (text : String), (uploadS s (Except.ok text)).2.success = true) ∧
    (∀ (s : SingleState) (e : String),
      uploadS s (Except.error e) = (s, ⟨false, "Error processing PDF: " ++ e⟩)) := by
  refine ⟨?_, fun _ _ => rfl, fun _ _ => rfl⟩
  intro s files
  refine ⟨rfl, ?_, ingestLoop_store_eq files s.pdfContexts []⟩
  show "PDFs uploaded and processed successfully: " ++
      String.intercalate ", " (ingestLoop s.pdfContexts [] files).2 = _
  rw [ingestLoop_names_eq files s.pdfContexts []]
  rfl

/-- C7: with a non-empty question but an empty Document Store, ask rejects
with the fixed "upload first" message, touching no state and never consulting
the provider (the result is the same for every provider `p`); and the
question check runs first — with both the question empty and the store
empty, the "No question provided." rejection wins. Both variants. -/
theorem empty_store_ask_rejected :
    (∀ (s : MultiState) (q : String) (p : List Turn → String → Except String String),
      q ≠ "" → s.pdfContexts = [] →
      askM s q p = (s, AskResponse.fail "Please upload at least one PDF first.")) ∧
    (∀ (s : MultiState) (p : List Turn → String → Except String String),
      s.pdfContexts = [] → askM s "" p = (s, AskResponse.fail "No question provided.")) ∧
    (∀ (s : SingleState) (q : String) (p : List Turn → String → Except String String),
      q ≠ "" → s.pdfContext = "" →
      askS s q p = (s, AskResponse.fail "Please upload a PDF first.")) ∧
    (∀ (s : SingleState) (p : List Turn → String → Except String String),
      s.pdfContext = "" → askS s "" p = (s, AskResponse.fail "No question provided.")) := by
  refine ⟨?_, ?_, ?_, ?_⟩
  · intro s q p hq hs
    unfold askM
    rw [if_neg hq, if_pos hs]
  · intro s p _
    unfold askM
    simp
  · intro s q p hq hs
    unfold askS
    rw [if_neg hq, if_pos hs]
  · intro s p _
    unfold askS
    simp

/-- C7 witness: concrete rejections on the initial (empty-store) states of
both variants, with the question check shown to run first. -/
theorem empty_store_ask_rejected_witness :
    askM initM "hi" (fun _ _ => Except.ok "x") =
      (initM, AskResponse.fail "Please upload at least one PDF first.") ∧
    askM initM "" (fun _ _ => Except.ok "x") =
      (initM, AskResponse.fail "No question provided.") ∧
    askS initS "hi" (fun _ _ => Except.ok "x") =
      (initS, AskResponse.fail "Please upload a PDF first.") ∧
    askS initS "" (fun _ _ => Except.ok "x") =
      (initS, AskResponse.fail "No question provided.") :=
  ⟨empty_store_ask_rejected.1 initM "hi" _ (by decide) rfl,
   empty_store_ask_rejected.2.1 initM _ rfl,
   empty_store_ask_rejected.2.2.1 initS "hi" _ (by decide) rfl,
   empty_store_ask_rejected.2.2.2 initS _ rfl⟩

/-- C8: in the single-document variant, a failed extraction during upload
returns the failure response built from the thrown message and leaves the
state — `pdfContext`, `systemPrompt` and `conversationHistory` alike —
exactly as it was (error atomicity). -/
theorem failed_single_upload_atomic :
    ∀ (s : SingleState) (e : String),
      uploadS s (Except.error e) = (s, ⟨false, "Error processing PDF: " ++ e⟩) :=
  fun _ _ => rfl

/-- C9: whatever the outcome of an ask — empty-question rejection,
empty-store rejection, provider failure or success — the Document Store and
the System Prompt are unchanged; only the Conversation Transcript can be
modified by ask. Both variants. -/
theorem ask_preserves_store_and_prompt :
    (∀ (s : MultiState) (q : String) (p : List Turn → String → Except String String),
      (askM s q p).1.pdfContexts = s.pdfContexts ∧
      (askM s q p).1.systemPrompt = s.systemPrompt) ∧
    (∀ (s : SingleState) (q : String) (p : List Turn → String → Except String String),
      (askS s q p).1.pdfContext = s.pdfContext ∧
      (askS s q p).1.systemPrompt = s.systemPrompt) := by
  constructor
  · intro s q p
    unfold askM
    by_cases hq : q = ""
    · simp [hq]
    by_cases hs : s.pdfContexts = []
    · simp [hq, hs]
    rw [if_neg hq, if_neg hs]
    cases hp : p (sentTranscriptM s q) s.systemPrompt <;> simp
  · intro s q p
    unfold askS
    by_cases hq : q = ""
    · simp [hq]
    by_cases hs : s.pdfContext = ""
    · simp [hq, hs]
    rw [if_neg hq, if_neg hs]
    cases hp : p (sentTranscriptS s q) s.systemPrompt <;> simp

/-- C10: in every state reachable from the initial state by any sequence of
ingest and ask requests (failed asks included), the Conversation Transcript
satisfies the invariant: if non-empty its first turn is a user turn, and
every assistant turn is immediately preceded by a user turn. Both
variants. -/
theorem reachable_transcript_wellformed :
    ∀ (evsM : List EventM) (evsS : List EventS),
      histOkIdx (runM initM evsM).conversationHistory ∧
      histOkIdx (runS initS evsS).conversationHistory := by
  intro evsM evsS
  exact ⟨wfHistory_histOkIdx _ (runM_wf evsM initM rfl),
         wfHistory_histOkIdx _ (runS_wf evsS initS rfl)⟩
